import Mathlib

/-!
Verification of the fake-news-detector backend verdict logic.

This file gives a shallow embedding of the decision core of the repository
(`utils/fact_check.py`, `utils/predictor.py`, `models/loader.py`) and proves
the behavioural claims about it.  Python strings are modelled by `String`,
Python floats by `ℚ` (the thresholds 0.6 and 0.8 are written 6/10 and 8/10;
every comparison appearing in the claims is exact at these values), Python
lists by `List`, and a Python function that can raise an uncaught exception
by an `Option`-valued function (`none` models the propagated fault).
-/

/-! ## String helpers modelling the Python primitives used by the code -/

/-- Boolean test that `p` is a leading segment of `s` (chars compared with `==`). -/
def listStartsWith : List Char → List Char → Bool
  | _, [] => true
  | [], _ :: _ => false
  | c :: cs, p :: ps => p == c && listStartsWith cs ps

/-- Python substring containment `pat in text`, by scanning every position. -/
def hasSubstr : List Char → List Char → Bool
  | [], pat => pat.isEmpty
  | c :: rest, pat => listStartsWith (c :: rest) pat || hasSubstr rest pat

/-- Python `str.lower()`.  `Char.toLower` lowers ASCII letters only; the
Sinhala and Tamil keyword scripts are caseless, so this coincides with the
Python behaviour on all text the claims concern. -/
def pyLower (s : String) : String := String.mk (s.data.map Char.toLower)

/-- Characters treated as whitespace by Python `str.strip()` and the regex
class `\s` (ASCII subset). -/
def isPySpace (c : Char) : Bool :=
  c == ' ' || c == '\t' || c == '\n' || c == '\r' || c == '\x0c' || c == '\x0b'

/-- Python `str.strip()`: remove leading and trailing whitespace. -/
def pyStrip (s : String) : String :=
  String.mk (((s.data.dropWhile isPySpace).reverse.dropWhile isPySpace).reverse)

/-- Python slicing `s[:n]` (by characters). -/
def pyTake (n : Nat) (s : String) : String := String.mk (s.data.take n)

/-- Python `str.capitalize()`: first character upper-cased, the rest lowered. -/
def pyCapitalize : List Char → List Char
  | [] => []
  | c :: rest => c.toUpper :: rest.map Char.toLower

/-! ## Data model: one normalized evidence item
(dict with keys claim / review_text / publisher / url in the source) -/

structure EvidenceItem where
  claim : String
  review_text : String
  publisher : String
  url : String
deriving Repr, DecidableEq

/-! ## utils/fact_check.py : TRUSTED_PUBLISHERS (the keys of the dict, in order) -/

def TRUSTED_PUBLISHERS : List String :=
  ["BBC", "Reuters", "AP News", "USA Today",
   "FactCheck.org", "Full Fact", "Snopes",
   "Science Feedback", "AAP", "PolitiFact",
   "The Associated Press", "Associated Press",
   "FactCheck.lk", "Hashtag Generation", "Ada Derana",
   "Groundviews", "Sri Lanka FactCheck", "News First", "Derana",
   "Mawbima", "Lankadeepa", "Divaina", "Silumina",
   "BOOM Tamil", "Fact Crescendo Tamil", "Vishvas News Tamil",
   "Youturn.in", "Newschecker Tamil", "Puthiya Thalaimurai",
   "Daily Thanthi", "Hindu Tamil", "Dinamalar", "Virakesari"]

/-! ## utils/fact_check.py : VERDICT_KEYWORDS -/

structure KeywordSet where
  fake : List String
  real : List String
  uncertain : List String
deriving Repr, DecidableEq

def enKeywords : KeywordSet :=
  { fake := ["false", "fake", "misleading", "not true", "debunked", "incorrect",
             "hoax", "disinformation", "untrue"]
    real := ["true", "correct", "accurate", "verified", "supported", "fact",
             "real", "authentic"]
    uncertain := ["unproven", "unverified", "insufficient evidence", "disputed",
                  "needs more info"] }

def siKeywords : KeywordSet :=
  { fake := ["බොරු", "ව්‍යාජ", "වැරදි", "මිත්‍යා", "පදනම් විරහිත", "අසත්‍ය", "කළ",
             "නොවේ", "නොමඟ යවන"]
    real := ["සැබෑ", "නිවැරදි", "තහවුරු කරන ලද", "සත්‍ය", "සහතික", "වාර්තාව",
             "කිසිදු වෙනසක් නැත"]
    uncertain := ["අවිනිශ්චිත", "තහවුරු නොකළ", "සාක්ෂි නොමැති", "විවාදයට තුඩු දුන්"] }

def taKeywords : KeywordSet :=
  { fake := ["பொய்", "போலி", "தவறான", "நம்பிக்கையற்ற", "சரியில்லாத", "ஏமாற்று",
             "உண்மையல்ல"]
    real := ["உண்மை", "சரியானது", "உறுதிப்படுத்தப்பட்ட", "சரிபார்க்கப்பட்டது",
             "உறுதி", "சரியானது"]
    uncertain := ["உறுதியற்ற", "நிரூபிக்கப்படாத", "போதுமான ஆதாரங்கள் இல்லை",
                  "சந்தேகத்திற்குரிய"] }

/-- Python `VERDICT_KEYWORDS.get(detected_lang, VERDICT_KEYWORDS["en"])`:
the three keys of the dict, any other code falling back to English. -/
def keywordsFor (lang : String) : KeywordSet :=
  if lang = "en" then enKeywords
  else if lang = "si" then siKeywords
  else if lang = "ta" then taKeywords
  else enKeywords

/-! ## utils/fact_check.py : decide_final_verdict (lines 216-277) -/

/-- Lowered concatenation built inside the loop of `decide_final_verdict`:
`(review.get("review_text", "") + " " + review.get("claim", "")).lower()`. -/
def stanceText (review : EvidenceItem) : String :=
  pyLower (review.review_text ++ " " ++ review.claim)

/-- Python `any(word in text for word in words)`. -/
def containsAny (text : String) (words : List String) : Bool :=
  words.any (fun w => hasSubstr text.data w.data)

/-- Per-item stance (`veracity_found` in the source): keyword containment in
the fixed order fake, real, uncertain; "unknown" when nothing matches. -/
def stanceOf (review : EvidenceItem) (lang : String) : String :=
  let text := stanceText review
  let kw := keywordsFor lang
  if containsAny text kw.fake then "fake"
  else if containsAny text kw.real then "real"
  else if containsAny text kw.uncertain then "uncertain"
  else "unknown"

structure TrustedCounts where
  real : Nat
  fake : Nat
  uncertain : Nat
deriving Repr, DecidableEq

/-- One iteration of the counting loop of `decide_final_verdict`. -/
def countStep (lang : String) (c : TrustedCounts) (review : EvidenceItem) : TrustedCounts :=
  let veracity_found := stanceOf review lang
  if pyStrip review.publisher ∈ TRUSTED_PUBLISHERS then
    if veracity_found = "real" then { c with real := c.real + 1 }
    else if veracity_found = "fake" then { c with fake := c.fake + 1 }
    else if veracity_found = "uncertain" then { c with uncertain := c.uncertain + 1 }
    else c
  else c

/-- The `trusted_real` / `trusted_fake` / `trusted_uncertain` counters after
the loop over `fact_checks`. -/
def trustedCounts (fact_checks : List EvidenceItem) (lang : String) : TrustedCounts :=
  fact_checks.foldl (countStep lang) ⟨0, 0, 0⟩

/-- Sum of the three trusted counters, used to state which items contribute. -/
def countsTotal (c : TrustedCounts) : Nat := c.real + c.fake + c.uncertain

/-- The rule chain after the counting loop (source lines 248-277).
Confidence thresholds 0.6 and 0.8 are written 6/10 and 8/10. -/
def verdictFromCounts (model_label : String) (model_confidence : ℚ)
    (c : TrustedCounts) (any_found : Bool) : String :=
  if 1 ≤ c.real ∧ 1 ≤ c.fake then "Uncertain"
  else if 2 ≤ c.real then "Real"
  else if 2 ≤ c.fake then "Fake"
  else if c.fake = 1 ∧ model_label = "Real" then "Uncertain"
  else if c.real = 1 ∧ model_label = "Fake" then "Uncertain"
  else if 0 < c.uncertain ∧ c.real = 0 ∧ c.fake = 0 then "Uncertain"
  else if model_confidence < 6/10 ∧ any_found = true then "Uncertain"
  else if any_found = false then
    (if model_confidence < 8/10 then "Uncertain" else model_label)
  else model_label

/-- utils/fact_check.py `decide_final_verdict`:
`any_search_results_found = bool(fact_checks)`. -/
def decide_final_verdict (model_label : String) (model_confidence : ℚ)
    (fact_checks : List EvidenceItem) (detected_lang : String) : String :=
  verdictFromCounts model_label model_confidence
    (trustedCounts fact_checks detected_lang) (!fact_checks.isEmpty)

/-! ## utils/fact_check.py : map_language_code (lines 171-179) -/

/-- utils/fact_check.py `map_language_code`: simplify a detected language
code with `startswith` tests, defaulting to English. -/
def map_language_code (code : String) : String :=
  if listStartsWith code.data ("si".data) then "si"
  else if listStartsWith code.data ("ta".data) then "ta"
  else if listStartsWith code.data ("en".data) then "en"
  else "en"

/-! ## utils/predictor.py : fake_news_predict and models/loader.py -/

/-- Keys of the `models` dict built in models/loader.py (`model_paths`). -/
def modelKeys : List String := ["si", "en", "ta"]

/-- utils/predictor.py `fake_news_predict`.  The tokenizer/torch inference is
external I/O; it is abstracted by `runModel`, which returns the argmax class
and the (already rounded) probability of that class.  The function returns
the sentinel ("Unsupported Language", 0.0) when the language has no model. -/
def fake_news_predict (runModel : String → String → Nat × ℚ)
    (text lang : String) : String × ℚ :=
  if lang ∈ modelKeys then
    ((if (runModel text lang).1 = 1 then "Real" else "Fake"), (runModel text lang).2)
  else ("Unsupported Language", 0)

/-! ## utils/fact_check.py : LLM response parsing (lines 388-405)

The regexes `Label:\s*(Real|Fake|Uncertain)` (IGNORECASE) and
`Confidence:\s*([0-9.]+)` are embedded as leftmost-match scans.  Both
patterns end in a token that cannot begin with whitespace, so the greedy
`\s*` never needs backtracking and maximal whitespace skipping is exact. -/

/-- Attempt the label pattern at the head of the text: "Label:"
case-insensitively, optional whitespace, then one of the alternatives
Real / Fake / Uncertain case-insensitively (tried in regex order); the
captured group keeps its original characters. -/
def tryLabelAt (cs : List Char) : Option (List Char) :=
  if (cs.take 6).map Char.toLower == "label:".data then
    let rest := (cs.drop 6).dropWhile isPySpace
    if (rest.take 4).map Char.toLower == "real".data then some (rest.take 4)
    else if (rest.take 4).map Char.toLower == "fake".data then some (rest.take 4)
    else if (rest.take 9).map Char.toLower == "uncertain".data then some (rest.take 9)
    else none
  else none

/-- Leftmost match of the label pattern (`re.search` semantics). -/
def searchLabel : List Char → Option (List Char)
  | [] => none
  | c :: cs =>
    match tryLabelAt (c :: cs) with
    | some g => some g
    | none => searchLabel cs

/-- Attempt the confidence pattern at the head of the text: "Confidence:"
case-sensitively, optional whitespace, then a nonempty run of `[0-9.]`. -/
def tryConfAt (cs : List Char) : Option (List Char) :=
  if cs.take 11 == "Confidence:".data then
    let ds := ((cs.drop 11).dropWhile isPySpace).takeWhile (fun c => c.isDigit || c == '.')
    if ds.isEmpty then none else some ds
  else none

/-- Leftmost match of the confidence pattern. -/
def searchConf : List Char → Option (List Char)
  | [] => none
  | c :: cs =>
    match tryConfAt (c :: cs) with
    | some g => some g
    | none => searchConf cs

/-- Value of a digit run (most significant first). -/
def digitsToNat (cs : List Char) : Nat :=
  cs.foldl (fun n c => 10 * n + (c.toNat - 48)) 0

/-- Python `float()` applied to a `[0-9.]+` match: fails (raises, modelled by
`none`) when the run has more than one dot or no digit at all; otherwise the
exact decimal value. -/
def parseDecimal (cs : List Char) : Option ℚ :=
  if 1 < cs.count '\x2e' ∨ cs.all (fun c => c == '\x2e') then none
  else
    let intPart := cs.takeWhile (fun c => c != '\x2e')
    let fracPart := (cs.dropWhile (fun c => c != '\x2e')).drop 1
    some (mkRat (digitsToNat intPart * 10 ^ fracPart.length + digitsToNat fracPart)
                (10 ^ fracPart.length))

/-- Lines 388-405 of utils/fact_check.py: derive the secondary assessment
from the raw LLM response text (`none` models a failed call).  The label is
extracted and capitalized when its pattern matches; the confidence is the
parsed decimal when its pattern matches and `float()` succeeds; every other
path keeps the defaults "Uncertain" and 0.5 (the `float()` exception is
caught by the surrounding `except`, after the label has been assigned). -/
def parseLLMAssessment (resp : Option String) : String × ℚ :=
  match resp with
  | none => ("Uncertain", 1/2)
  | some text =>
    let model_label :=
      match searchLabel text.data with
      | some g => String.mk (pyCapitalize g)
      | none => "Uncertain"
    let model_confidence :=
      match searchConf text.data with
      | some ds =>
        match parseDecimal ds with
        | some q => q
        | none => 1/2
      | none => 1/2
    (model_label, model_confidence)

/-! ## utils/fact_check.py : evidence connectors and their normalization

A raw JSON record is modelled with `Option String` fields (`none` = the key
is absent).  Python `d["k"]` on an absent key raises KeyError; in
`fetch_newsapi_articles` / `fetch_gnews_articles` (lines 68, 86) that
exception is not caught by the `except httpx...` clauses and propagates, so
the normalization of one raw article is `Option`-valued. -/

/-- Raw article from NewsAPI / GNews (`article["title"]`,
`article["description"]`, `article["source"]["name"]`, `article["url"]`). -/
structure RawArticle where
  title : Option String
  description : Option String
  sourceName : Option String
  url : Option String
deriving Repr, DecidableEq

/-- The dict built for one article at lines 68-69 / 86-87: every field is a
mandatory subscript, so one absent key faults the whole call. -/
def newsapiArticleToItem (a : RawArticle) : Option EvidenceItem :=
  match a.title, a.description, a.sourceName, a.url with
  | some t, some d, some s, some u => some ⟨t, d, s, u⟩
  | _, _, _, _ => none

/-- The list comprehension over `data.get("articles", [])`: the first absent
field aborts the call with the propagated KeyError. -/
def newsapiArticlesToItems : List RawArticle → Option (List EvidenceItem)
  | [] => some []
  | a :: rest =>
    match newsapiArticleToItem a, newsapiArticlesToItems rest with
    | some e, some es => some (e :: es)
    | _, _ => none

/-- One entry of a `claimReview` list in the Google Fact Check response
(`claim_review.get("text", "")`, `.get("publisher", {}).get("name", "")`,
`.get("url", "")`). -/
structure RawClaimReview where
  text : Option String
  publisherName : Option String
  url : Option String
deriving Repr, DecidableEq

/-- One claim record of the Google Fact Check response: `fc_item.get("text")`
and the optional `claimReview` list. -/
structure RawFactCheckItem where
  text : Option String
  claimReview : Option (List RawClaimReview)
deriving Repr, DecidableEq

/-- Lines 315-323: an item without a `claimReview` key is skipped; otherwise
`fc_item.get("claimReview", [{}])[0]` takes the first review (IndexError,
modelled by `none`, when the present list is empty) and every text field
defaults to the empty string via `.get`. -/
def googleItemToItems (fc : RawFactCheckItem) : Option (List EvidenceItem) :=
  match fc.claimReview with
  | none => some []
  | some [] => none
  | some (cr :: _) =>
    some [⟨fc.text.getD "", cr.text.getD "", cr.publisherName.getD "", cr.url.getD ""⟩]

/-- The loop over `google_results`, concatenating the per-item results. -/
def googleItemsToItems : List RawFactCheckItem → Option (List EvidenceItem)
  | [] => some []
  | fc :: rest =>
    match googleItemToItems fc, googleItemsToItems rest with
    | some es, some rs => some (es ++ rs)
    | _, _ => none

/-! ## utils/fact_check.py : perform_agent_fact_check (lines 282-426) -/

/-- The language routing decision table implicit in the branch at lines
295-355: Sinhala/Tamil scrape DuckDuckGo with a Sri Lanka locale hint,
English uses the structured API chain, anything else scrapes with the raw
language code. -/
inductive SourceStrategy where
  | scrapeLocale : SourceStrategy
  | apiChain : SourceStrategy
  | scrapeOther : SourceStrategy
deriving Repr, DecidableEq

/-- Route selection: `lang_code in ["si", "ta"]`, `lang_code == "en"`, else. -/
def evidenceRoute (lang : String) : SourceStrategy :=
  if lang = "si" ∨ lang = "ta" then SourceStrategy.scrapeLocale
  else if lang = "en" then SourceStrategy.apiChain
  else SourceStrategy.scrapeOther

/-- The search query string passed to the scraper (lines 298 and 348);
`none` on the English route, which does not scrape. -/
def scrapeQuery (claim lang : String) : Option String :=
  match evidenceRoute lang with
  | SourceStrategy.scrapeLocale => some (claim ++ " news Sri Lanka")
  | SourceStrategy.apiChain => none
  | SourceStrategy.scrapeOther => some (claim ++ " news " ++ lang)

/-- Outcome of the external world for one request: what each connector
returned (scraped results arrive already normalized by `scrape_search_results`
with string defaults "No Title" / "No URL" / "No Snippet"), and the LLM
response text as a function of the prompt (`none` = the call failed). -/
structure FetchEnv where
  scraped : List EvidenceItem
  google : List RawFactCheckItem
  newsapi : List RawArticle
  gnews : List RawArticle
  llm : String → Option String

/-- Lines 292-355: `fact_checks_formatted` after conditional source
fetching; `none` models a KeyError/IndexError escaping the English branch. -/
def gatherEvidence (lang : String) (env : FetchEnv) : Option (List EvidenceItem) :=
  match evidenceRoute lang with
  | SourceStrategy.scrapeLocale => some env.scraped
  | SourceStrategy.apiChain =>
    match googleItemsToItems env.google, newsapiArticlesToItems env.newsapi,
          newsapiArticlesToItems env.gnews with
    | some g, some n, some gn => some (g ++ n ++ gn)
    | _, _, _ => none
  | SourceStrategy.scrapeOther => some env.scraped

/-- Per-source block of the synthesis prompt (lines 373-378): only the first
ten evidence items, in order, with the snippet cut at 300 characters and the
URL line kept only when the url is nonempty and not "N/A". -/
def promptSourceBlocks (fact_checks : List EvidenceItem) : List String :=
  (fact_checks.take 10).enum.map (fun p =>
    "\n--- Source " ++ toString (p.1 + 1) ++ " ---\n" ++
    "Publisher: " ++ p.2.publisher ++ "\n" ++
    "Snippet/Review: " ++ pyTake 300 p.2.review_text ++ "...\n" ++
    (if p.2.url ≠ "" ∧ p.2.url ≠ "N/A" then "URL: " ++ p.2.url ++ "\n" else ""))

/-- The synthesis prompt of lines 359-386 (the Python triple-quoted template
keeps a four-space indentation on every line, elided here). -/
def buildPrompt (claim lang : String) (fact_checks : List EvidenceItem) : String :=
  "You are an AI assistant tasked with analyzing information from various sources about a claim.\n" ++
  "Based on the following claim and the provided external search results, synthesize the information to determine if the claim is \x27Real\x27, \x27Fake\x27, or \x27Uncertain\x27.\n" ++
  "Provide a confidence score between 0.0 and 1.0 (e.g., 0.9 for high confidence) based *only* on the provided sources.\n" ++
  "If sources conflict or are insufficient, state \x27Uncertain\x27.\n\n" ++
  "Claim in " ++ lang ++ ":\n---\n" ++ claim ++ "\n---\n\n" ++
  "Collected External Information:\n" ++
  (if fact_checks.isEmpty then
    "\nNo significant external information found. Based on this, the claim is Uncertain."
   else String.join (promptSourceBlocks fact_checks)) ++
  "\n---\nBased on the above, provide your assessment.\n" ++
  "Output format: Label: [Real/Fake/Uncertain], Confidence: [0.0-1.0]\n"

/-- Python `f"{q:.2f}"` for the nonnegative confidences that occur here
(rounding ties differ from IEEE formatting, which no claim depends on). -/
def fmt2 (q : ℚ) : String :=
  toString (round (q * 100) / 100) ++ "." ++
  (if (round (q * 100) % 100).toNat < 10 then "0" ++ toString ((round (q * 100) % 100).toNat)
   else toString ((round (q * 100) % 100).toNat))

/-- One line of the `sources_info` list (lines 412-416): only the publisher,
the review snippet cut at 100 characters, and the url. -/
def sourceLine (fc : EvidenceItem) : String :=
  "- Publisher: " ++ fc.publisher ++ ", Review: " ++ pyTake 100 fc.review_text ++
  "..., URL: " ++ fc.url

/-- `sources_info`: only the first five evidence items, in order. -/
def sourcesInfo (fact_checks : List EvidenceItem) : List String :=
  (fact_checks.take 5).map sourceLine

/-- The dict returned by `perform_agent_fact_check` (lines 421-426). -/
structure FactCheckResult where
  final_verdict : String
  explanation : String
  fact_check_status : String
  fact_check_sources : List EvidenceItem
deriving Repr

/-- Lines 358-426 given the gathered evidence: parse the LLM response into
the secondary assessment, reconcile on the FULL evidence list, and assemble
the explanation from the first five sources only. -/
def assembleResult (claim lang : String) (env : FetchEnv)
    (fact_checks : List EvidenceItem) : FactCheckResult :=
  let assessment := parseLLMAssessment (env.llm (buildPrompt claim lang fact_checks))
  let model_label := assessment.1
  let model_confidence := assessment.2
  let final_verdict := decide_final_verdict model_label model_confidence fact_checks lang
  let lines := sourcesInfo fact_checks
  let sources_str := if lines.isEmpty then "No specific external sources found."
                     else String.intercalate "\n" lines
  { final_verdict := final_verdict
    explanation := "Based on available sources, the verdict is " ++ final_verdict ++
      ". AI\x27s Source-Based Label: " ++ model_label ++ " (Confidence: " ++
      fmt2 model_confidence ++ ").\n\nSupporting External Sources:\n" ++ sources_str
    fact_check_status := if fact_checks.isEmpty then "Not found" else "Found"
    fact_check_sources := fact_checks }

/-- utils/fact_check.py `perform_agent_fact_check`: gather evidence by
route, then assemble; a propagated connector KeyError/IndexError (English
route only) propagates out as `none`. -/
def perform_agent_fact_check (claim lang : String) (env : FetchEnv) :
    Option FactCheckResult :=
  (gatherEvidence lang env).map (assembleResult claim lang env)

/-! ## Concrete inputs used in witnesses and counterexamples -/

/-- Evidence item used in concrete instantiations: a trusted publisher with a
real-stance snippet. -/
def bbcVerifiedItem : EvidenceItem := ⟨"", "verified", "BBC", ""⟩

/-- Evidence item used in concrete instantiations: a trusted publisher with a
fake-stance snippet. -/
def bbcFakeItem : EvidenceItem := ⟨"", "fake", "BBC", ""⟩

/-! ## Theorems -/

/-- C1: conflicting trusted evidence (at least one trusted real and one
trusted fake stance) makes `decide_final_verdict` return "Uncertain"
regardless of the model label, the model confidence and the language. -/
theorem c1_conflict_dominance (model_label : String) (model_confidence : ℚ)
    (fact_checks : List EvidenceItem) (lang : String)
    (h1 : 1 ≤ (trustedCounts fact_checks lang).real)
    (h2 : 1 ≤ (trustedCounts fact_checks lang).fake) :
    decide_final_verdict model_label model_confidence fact_checks lang = "Uncertain" := by
  show verdictFromCounts model_label model_confidence
    (trustedCounts fact_checks lang) (!fact_checks.isEmpty) = "Uncertain"
  unfold verdictFromCounts
  rw [if_pos ⟨h1, h2⟩]

/-- Witness for C1: one trusted real-stance item and one trusted fake-stance
item give the counts 1/1 and the verdict "Uncertain" even for a confident
model saying "Real". -/
theorem c1_conflict_dominance_witness :
    1 ≤ (trustedCounts [bbcVerifiedItem, bbcFakeItem] "en").real ∧
    1 ≤ (trustedCounts [bbcVerifiedItem, bbcFakeItem] "en").fake ∧
    decide_final_verdict "Real" (9/10) [bbcVerifiedItem, bbcFakeItem] "en" = "Uncertain" :=
  ⟨by decide, by decide,
   c1_conflict_dominance "Real" (9/10) [bbcVerifiedItem, bbcFakeItem] "en"
     (by decide) (by decide)⟩

/-- C2: a trusted consensus (two or more trusted real stances with no trusted
fake stance) forces "Real" whatever the model said, and symmetrically for
"Fake"; in particular a model saying "Fake" at confidence 0.9 is overridden
to "Real" by two trusted real-stance items. -/
theorem c2_consensus_override :
    (∀ (model_label : String) (model_confidence : ℚ)
       (fact_checks : List EvidenceItem) (lang : String),
       2 ≤ (trustedCounts fact_checks lang).real →
       (trustedCounts fact_checks lang).fake = 0 →
       decide_final_verdict model_label model_confidence fact_checks lang = "Real") ∧
    (∀ (model_label : String) (model_confidence : ℚ)
       (fact_checks : List EvidenceItem) (lang : String),
       2 ≤ (trustedCounts fact_checks lang).fake →
       (trustedCounts fact_checks lang).real = 0 →
       decide_final_verdict model_label model_confidence fact_checks lang = "Fake") ∧
    decide_final_verdict "Fake" (9/10) [bbcVerifiedItem, bbcVerifiedItem] "en" = "Real" := by
  refine ⟨?_, ?_, by decide⟩
  · intro model_label model_confidence fact_checks lang h1 h2
    show verdictFromCounts model_label model_confidence
      (trustedCounts fact_checks lang) (!fact_checks.isEmpty) = "Real"
    unfold verdictFromCounts
    rw [if_neg (fun h => by omega), if_pos h1]
  · intro model_label model_confidence fact_checks lang h1 h2
    show verdictFromCounts model_label model_confidence
      (trustedCounts fact_checks lang) (!fact_checks.isEmpty) = "Fake"
    unfold verdictFromCounts
    rw [if_neg (fun h => by omega), if_neg (by omega), if_pos h1]

/-- Witness for C2: two trusted real-stance items against a confident "Fake"
model yield "Real". -/
theorem c2_consensus_override_witness :
    2 ≤ (trustedCounts [bbcVerifiedItem, bbcVerifiedItem] "en").real ∧
    (trustedCounts [bbcVerifiedItem, bbcVerifiedItem] "en").fake = 0 ∧
    decide_final_verdict "Fake" (9/10) [bbcVerifiedItem, bbcVerifiedItem] "en" = "Real" :=
  ⟨by decide, by decide,
   c2_consensus_override.1 "Fake" (9/10) [bbcVerifiedItem, bbcVerifiedItem] "en"
     (by decide) (by decide)⟩

/-- C3: with all trusted counters zero the verdict depends only on whether
evidence exists and on the confidence bars: empty evidence uses the bar 0.8,
non-empty evidence uses the bar 0.6, and above the applicable bar the model
label passes through.  The no-evidence bar is strictly higher. -/
theorem c3_no_evidence_conservatism (model_label : String) (model_confidence : ℚ)
    (fact_checks : List EvidenceItem) (lang : String)
    (h : trustedCounts fact_checks lang = ⟨0, 0, 0⟩) :
    decide_final_verdict model_label model_confidence fact_checks lang =
      (if fact_checks.isEmpty then
        (if model_confidence < 8/10 then "Uncertain" else model_label)
       else if model_confidence < 6/10 then "Uncertain" else model_label) ∧
    (6/10 : ℚ) < 8/10 := by
  refine ⟨?_, by norm_num⟩
  show verdictFromCounts model_label model_confidence
    (trustedCounts fact_checks lang) (!fact_checks.isEmpty) = _
  rw [h]
  unfold verdictFromCounts
  cases hfc : fact_checks.isEmpty <;> simp

/-- Witness for C3: the empty evidence list has zero trusted counts, and a
model at confidence 0.75 gets downgraded to "Uncertain". -/
theorem c3_no_evidence_conservatism_witness :
    trustedCounts [] "en" = ⟨0, 0, 0⟩ ∧
    (decide_final_verdict "Real" (75/100) [] "en" =
      (if ([] : List EvidenceItem).isEmpty then
        (if (75/100 : ℚ) < 8/10 then "Uncertain" else "Real")
       else if (75/100 : ℚ) < 6/10 then "Uncertain" else "Real") ∧
     (6/10 : ℚ) < 8/10) :=
  ⟨rfl, c3_no_evidence_conservatism "Real" (75/100) [] "en" rfl⟩

/-- Helper: one loop iteration adds exactly one to the combined trusted
counters when the stripped publisher is on the allow-list and the stance is
one of real, fake, uncertain, and leaves them unchanged otherwise. -/
theorem countStep_total (lang : String) (c : TrustedCounts) (item : EvidenceItem) :
    countsTotal (countStep lang c item) =
      countsTotal c +
        (if pyStrip item.publisher ∈ TRUSTED_PUBLISHERS ∧
            stanceOf item lang ∈ (["real", "fake", "uncertain"] : List String)
         then 1 else 0) := by
  unfold countStep countsTotal
  by_cases hp : pyStrip item.publisher ∈ TRUSTED_PUBLISHERS
  · simp only [hp, if_true, true_and]
    by_cases hr : stanceOf item lang = "real"
    · simp [hr]; omega
    · by_cases hf : stanceOf item lang = "fake"
      · simp [hr, hf]; omega
      · by_cases hu : stanceOf item lang = "uncertain"
        · simp [hr, hf, hu]; omega
        · simp [hr, hf, hu]
  · simp [hp]

/-- Helper: folding the counting loop from any starting counters adds the
number of contributing items. -/
theorem foldl_countStep_total (lang : String) :
    ∀ (fact_checks : List EvidenceItem) (c : TrustedCounts),
      countsTotal (List.foldl (countStep lang) c fact_checks) =
        countsTotal c +
          (fact_checks.filter (fun item =>
            decide (pyStrip item.publisher ∈ TRUSTED_PUBLISHERS ∧
                    stanceOf item lang ∈ (["real", "fake", "uncertain"] : List String)))).length
  | [], c => by simp
  | item :: rest, c => by
    rw [List.foldl_cons, foldl_countStep_total lang rest (countStep lang c item),
        countStep_total lang c item, List.filter_cons]
    by_cases h : pyStrip item.publisher ∈ TRUSTED_PUBLISHERS ∧
        stanceOf item lang ∈ (["real", "fake", "uncertain"] : List String)
    · rw [if_pos h, if_pos (decide_eq_true h)]
      simp only [List.length_cons]
      omega
    · rw [if_neg h, if_neg (fun hc => h (of_decide_eq_true hc))]
      omega

/-- C4: the stance of an evidence item is computed on the lowered
concatenation of review text then claim text, testing keyword containment in
the fixed precedence fake, real, uncertain, with no match giving "unknown"
(so a text containing both a fake and a real keyword is "fake"), and a
language code outside the keyword table classifies with the English set. -/
theorem c4_stance_precedence :
    (∀ (item : EvidenceItem) (lang : String),
      (containsAny (stanceText item) (keywordsFor lang).fake = true →
        stanceOf item lang = "fake") ∧
      (containsAny (stanceText item) (keywordsFor lang).fake = false →
        containsAny (stanceText item) (keywordsFor lang).real = true →
        stanceOf item lang = "real") ∧
      (containsAny (stanceText item) (keywordsFor lang).fake = false →
        containsAny (stanceText item) (keywordsFor lang).real = false →
        containsAny (stanceText item) (keywordsFor lang).uncertain = true →
        stanceOf item lang = "uncertain") ∧
      (containsAny (stanceText item) (keywordsFor lang).fake = false →
        containsAny (stanceText item) (keywordsFor lang).real = false →
        containsAny (stanceText item) (keywordsFor lang).uncertain = false →
        stanceOf item lang = "unknown")) ∧
    (∀ (item : EvidenceItem) (lang : String),
      lang ≠ "en" → lang ≠ "si" → lang ≠ "ta" →
        stanceOf item lang = stanceOf item "en") ∧
    stanceOf ⟨"The claim was previously thought true but is now confirmed false",
              "", "", ""⟩ "en" = "fake" := by
  refine ⟨fun item lang => ⟨?_, ?_, ?_, ?_⟩, fun item lang h1 h2 h3 => ?_, by decide⟩
  · intro hf; simp [stanceOf, hf]
  · intro hf hr; simp [stanceOf, hf, hr]
  · intro hf hr hu; simp [stanceOf, hf, hr, hu]
  · intro hf hr hu; simp [stanceOf, hf, hr, hu]
  · unfold stanceOf
    have hk : keywordsFor lang = keywordsFor "en" := by
      unfold keywordsFor
      rw [if_neg h1, if_neg h2, if_neg h3, if_pos rfl]
    rw [hk]

/-- Witness for C4: a snippet containing the fake keyword "false" classifies
as "fake". -/
theorem c4_stance_precedence_witness :
    containsAny (stanceText ⟨"x is false", "", "", ""⟩) (keywordsFor "en").fake = true ∧
    stanceOf ⟨"x is false", "", "", ""⟩ "en" = "fake" :=
  ⟨by decide, (c4_stance_precedence.1 ⟨"x is false", "", "", ""⟩ "en").1 (by decide)⟩

/-- C5: an item contributes to the trusted counters exactly when its
whitespace-stripped publisher is literally (case-sensitively) on the
allow-list and its stance is real, fake or uncertain; a lowercase publisher
"bbc" with a real-stance snippet therefore contributes nothing even though
"BBC" is on the list. -/
theorem c5_trust_filter :
    (∀ (lang : String) (c : TrustedCounts) (item : EvidenceItem),
      countsTotal (countStep lang c item) =
        countsTotal c +
          (if pyStrip item.publisher ∈ TRUSTED_PUBLISHERS ∧
              stanceOf item lang ∈ (["real", "fake", "uncertain"] : List String)
           then 1 else 0)) ∧
    (∀ (lang : String) (fact_checks : List EvidenceItem),
      countsTotal (trustedCounts fact_checks lang) =
        (fact_checks.filter (fun item =>
          decide (pyStrip item.publisher ∈ TRUSTED_PUBLISHERS ∧
                  stanceOf item lang ∈ (["real", "fake", "uncertain"] : List String)))).length) ∧
    stanceOf ⟨"", "verified", "bbc", ""⟩ "en" = "real" ∧
    trustedCounts [⟨"", "verified", "bbc", ""⟩] "en" = ⟨0, 0, 0⟩ := by
  refine ⟨countStep_total, fun lang fact_checks => ?_, by decide, by decide⟩
  rw [trustedCounts, foldl_countStep_total lang fact_checks ⟨0, 0, 0⟩]
  simp [countsTotal]

/-- C6 counterexample: one raw NewsAPI/GNews record with an absent title
(other fields present) makes the normalization of lines 68-69 fault (the
KeyError is not caught by the `except httpx` clauses), so the missing-field
fault does propagate to the caller instead of an empty-string substitution. -/
theorem c6_counterexample :
    newsapiArticlesToItems [⟨none, some "d", some "BBC", some "u"⟩] = none := rfl

/-- C6 (amended): the Google Fact Check normalization substitutes the empty
string for absent claim-text/review-text/publisher/url fields and never
faults as long as each present claimReview list is nonempty, every produced
item having all four fields as (possibly empty) strings; the NewsAPI/GNews
normalization instead succeeds on a record exactly when all four raw fields
are present. -/
theorem c6_amended_normalization :
    (∀ (l : List RawFactCheckItem),
      (∀ fc ∈ l, fc.claimReview ≠ some ([] : List RawClaimReview)) →
      (googleItemsToItems l).isSome = true) ∧
    googleItemToItems ⟨none, some [⟨none, none, none⟩]⟩ =
      some [⟨"", "", "", ""⟩] ∧
    (∀ a : RawArticle,
      (newsapiArticleToItem a).isSome =
        (a.title.isSome && a.description.isSome && a.sourceName.isSome && a.url.isSome)) := by
  refine ⟨?_, rfl, ?_⟩
  · intro l h
    induction l with
    | nil => rfl
    | cons fc rest ih =>
      have h1 : ∃ es, googleItemToItems fc = some es := by
        match hcr : fc.claimReview with
        | none => exact ⟨[], by simp [googleItemToItems, hcr]⟩
        | some [] => exact absurd hcr (h fc (List.mem_cons_self fc rest))
        | some (cr :: more) =>
          exact ⟨[⟨fc.text.getD "", cr.text.getD "", cr.publisherName.getD "",
                   cr.url.getD ""⟩], by simp [googleItemToItems, hcr]⟩
      obtain ⟨es, hes⟩ := h1
      have h2 := ih (fun x hx => h x (List.mem_cons_of_mem fc hx))
      obtain ⟨rs, hrs⟩ := Option.isSome_iff_exists.mp h2
      simp [googleItemsToItems, hes, hrs]
  · intro a
    rcases a with ⟨t, d, sn, u⟩
    cases t <;> cases d <;> cases sn <;> cases u <;> rfl

/-- Witness for C6 (amended): a well-formed Google record normalizes
successfully. -/
theorem c6_amended_normalization_witness :
    (∀ fc ∈ ([⟨some "t", some [⟨some "r", some "BBC", some "u"⟩]⟩] : List RawFactCheckItem),
      fc.claimReview ≠ some ([] : List RawClaimReview)) ∧
    (googleItemsToItems
      [⟨some "t", some [⟨some "r", some "BBC", some "u"⟩]⟩]).isSome = true :=
  ⟨by decide,
   c6_amended_normalization.1 [⟨some "t", some [⟨some "r", some "BBC", some "u"⟩]⟩]
     (by decide)⟩

/-- C7 counterexample: for an unsupported language the classifier does return
the sentinel, but the verdict reconciliation inside
`perform_agent_fact_check` does not run with that assessment: with the LLM
answering Real at 0.9 and no evidence, the final verdict is "Real", whereas
reconciling with the sentinel confidence 0.0 would give "Uncertain" through
rule 9, so the sentinel does not force Uncertain-leaning behavior. -/
theorem c7_counterexample :
    fake_news_predict (fun _ _ => (1, 9/10)) "claim text" "fr" =
      ("Unsupported Language", 0) ∧
    (perform_agent_fact_check "claim text" "fr"
        ⟨[], [], [], [], fun _ => some "Label: Real, Confidence: 0.9"⟩).map
      (fun r => r.final_verdict) = some "Real" ∧
    decide_final_verdict "Unsupported Language" 0 [] "fr" = "Uncertain" := by
  refine ⟨by decide, ?_, ?_⟩
  · have hp : parseLLMAssessment (some "Label: Real, Confidence: 0.9") =
        ("Real", mkRat 9 10) := by decide
    have hv : decide_final_verdict "Real" (mkRat 9 10) [] "fr" = "Real" := by
      norm_num [decide_final_verdict, verdictFromCounts, trustedCounts, Rat.mkRat_eq_div]
    show some (decide_final_verdict
        (parseLLMAssessment (some "Label: Real, Confidence: 0.9")).1
        (parseLLMAssessment (some "Label: Real, Confidence: 0.9")).2 [] "fr") = some "Real"
    rw [hp, hv]
  · norm_num [decide_final_verdict, verdictFromCounts, trustedCounts]

/-- C7 (amended): when the detected language has no local classifier model
the classifier returns the sentinel assessment ("Unsupported Language", 0.0)
instead of faulting, and the downstream verdict reconciliation still runs -
but with the LLM-derived secondary assessment (defaulting to "Uncertain",
0.5), not with the sentinel, whose confidence therefore never feeds rule 9. -/
theorem c7_amended_sentinel :
    (∀ (runModel : String → String → Nat × ℚ) (text lang : String),
      lang ∉ modelKeys →
      fake_news_predict runModel text lang = ("Unsupported Language", 0)) ∧
    (∀ (claim lang : String) (env : FetchEnv) (fact_checks : List EvidenceItem),
      gatherEvidence lang env = some fact_checks →
      perform_agent_fact_check claim lang env =
        some (assembleResult claim lang env fact_checks) ∧
      (assembleResult claim lang env fact_checks).final_verdict =
        decide_final_verdict
          (parseLLMAssessment (env.llm (buildPrompt claim lang fact_checks))).1
          (parseLLMAssessment (env.llm (buildPrompt claim lang fact_checks))).2
          fact_checks lang) := by
  constructor
  · intro runModel text lang h
    unfold fake_news_predict
    rw [if_neg h]
  · intro claim lang env fact_checks h
    constructor
    · rw [perform_agent_fact_check, h]
      rfl
    · rfl

/-- Witness for C7 (amended): the sentinel branch at the unlisted code "fr",
and the reconciliation equation at a concrete environment with no evidence
and a failing LLM call. -/
theorem c7_amended_sentinel_witness :
    ("fr" ∉ modelKeys ∧
     fake_news_predict (fun _ _ => (1, 9/10)) "t" "fr" = ("Unsupported Language", 0)) ∧
    (gatherEvidence "si" ⟨[], [], [], [], fun _ => none⟩ = some [] ∧
     perform_agent_fact_check "x" "si" ⟨[], [], [], [], fun _ => none⟩ =
       some (assembleResult "x" "si" ⟨[], [], [], [], fun _ => none⟩ [])) :=
  ⟨⟨by decide, c7_amended_sentinel.1 (fun _ _ => (1, 9/10)) "t" "fr" (by decide)⟩,
   ⟨rfl, (c7_amended_sentinel.2 "x" "si" ⟨[], [], [], [], fun _ => none⟩ [] rfl).1⟩⟩

/-- C8: a failed LLM call gives the default assessment ("Uncertain", 0.5);
when the label pattern does not match the label stays "Uncertain", when it
matches the captured token is capitalized (the match itself being
case-insensitive); when the confidence pattern does not match, or the
matched run is not a parseable decimal, the confidence stays 0.5, and when
it parses the decimal value is used. -/
theorem c8_llm_extraction :
    parseLLMAssessment none = ("Uncertain", 1/2) ∧
    (∀ s : String, searchLabel s.data = none →
      (parseLLMAssessment (some s)).1 = "Uncertain") ∧
    (∀ (s : String) (g : List Char), searchLabel s.data = some g →
      (parseLLMAssessment (some s)).1 = String.mk (pyCapitalize g)) ∧
    (∀ s : String, searchConf s.data = none →
      (parseLLMAssessment (some s)).2 = 1/2) ∧
    (∀ (s : String) (ds : List Char) (q : ℚ), searchConf s.data = some ds →
      parseDecimal ds = some q → (parseLLMAssessment (some s)).2 = q) ∧
    parseLLMAssessment (some "label: fAkE, Confidence: 0.25") = ("Fake", 1/4) := by
  have hconc : parseLLMAssessment (some "label: fAkE, Confidence: 0.25") =
      ("Fake", mkRat 25 100) := by decide
  refine ⟨rfl, ?_, ?_, ?_, ?_, by rw [hconc]; norm_num [Rat.mkRat_eq_div]⟩
  · intro s h; simp [parseLLMAssessment, h]
  · intro s g h; simp [parseLLMAssessment, h]
  · intro s h; simp [parseLLMAssessment, h]
  · intro s ds q h1 h2; simp [parseLLMAssessment, h1, h2]

/-- Witness for C8: a response with neither pattern keeps both defaults. -/
theorem c8_llm_extraction_witness :
    searchLabel ("hello" : String).data = none ∧
    (parseLLMAssessment (some "hello")).1 = "Uncertain" :=
  ⟨by decide, c8_llm_extraction.2.1 "hello" (by decide)⟩

/-- C9: whenever evidence gathering succeeds, the synthesis prompt digest is
built from at most the first 10 evidence items, the explanation source lines
from at most the first 5 (snippets cut at 100 characters inside
`sourceLine`), both in original order, while the verdict is computed by
`decide_final_verdict` on the full untruncated evidence list, so the
truncations never change the verdict. -/
theorem c9_truncation :
    ∀ (claim lang : String) (env : FetchEnv) (fact_checks : List EvidenceItem),
      gatherEvidence lang env = some fact_checks →
      perform_agent_fact_check claim lang env =
        some (assembleResult claim lang env fact_checks) ∧
      (promptSourceBlocks fact_checks).length ≤ 10 ∧
      (sourcesInfo fact_checks).length ≤ 5 ∧
      promptSourceBlocks fact_checks = promptSourceBlocks (fact_checks.take 10) ∧
      sourcesInfo fact_checks = sourcesInfo (fact_checks.take 5) ∧
      (assembleResult claim lang env fact_checks).final_verdict =
        decide_final_verdict
          (parseLLMAssessment (env.llm (buildPrompt claim lang fact_checks))).1
          (parseLLMAssessment (env.llm (buildPrompt claim lang fact_checks))).2
          fact_checks lang := by
  intro claim lang env fact_checks h
  refine ⟨?_, ?_, ?_, ?_, ?_, rfl⟩
  · rw [perform_agent_fact_check, h]
    rfl
  · simp [promptSourceBlocks, List.length_take]
  · simp [sourcesInfo, List.length_take]
  · simp [promptSourceBlocks, List.take_take]
  · simp [sourcesInfo, List.take_take]

/-- Witness for C9: the successful gathering of the empty evidence list on
the Sinhala route, and the resulting bounds. -/
theorem c9_truncation_witness :
    gatherEvidence "si" ⟨[], [], [], [], fun _ => none⟩ = some [] ∧
    (promptSourceBlocks ([] : List EvidenceItem)).length ≤ 10 ∧
    (sourcesInfo ([] : List EvidenceItem)).length ≤ 5 :=
  ⟨rfl,
   (c9_truncation "x" "si" ⟨[], [], [], [], fun _ => none⟩ [] rfl).2.1,
   (c9_truncation "x" "si" ⟨[], [], [], [], fun _ => none⟩ [] rfl).2.2.1⟩

/-- C10: `map_language_code` is total with range exactly si, ta, en (any code
not starting with one of these maps to "en"), so a mapped code always hits a
loaded model - `fake_news_predict` takes its inference branch and never
returns the unsupported-language sentinel - and the language router never
takes the other-language scraping branch. -/
theorem c10_language_totality :
    (∀ code : String, map_language_code code ∈ (["si", "ta", "en"] : List String)) ∧
    map_language_code "si" = "si" ∧
    map_language_code "ta" = "ta" ∧
    map_language_code "en" = "en" ∧
    (∀ code : String,
      listStartsWith code.data (("si" : String).data) = false →
      listStartsWith code.data (("ta" : String).data) = false →
      listStartsWith code.data (("en" : String).data) = false →
      map_language_code code = "en") ∧
    (∀ (runModel : String → String → Nat × ℚ) (text code : String),
      fake_news_predict runModel text (map_language_code code) =
        ((if (runModel text (map_language_code code)).1 = 1 then "Real" else "Fake"),
         (runModel text (map_language_code code)).2)) ∧
    (∀ code : String,
      evidenceRoute (map_language_code code) ≠ SourceStrategy.scrapeOther) := by
  refine ⟨?_, rfl, rfl, rfl, ?_, ?_, ?_⟩
  · intro code
    unfold map_language_code
    split_ifs <;> decide
  · intro code h1 h2 h3
    unfold map_language_code
    rw [h1, h2, h3]
    rfl
  · intro runModel text code
    have hmem : map_language_code code ∈ modelKeys := by
      unfold map_language_code modelKeys
      split_ifs <;> decide
    unfold fake_news_predict
    rw [if_pos hmem]
  · intro code
    unfold map_language_code evidenceRoute
    split_ifs <;> simp_all

/-- Witness for C10: the code "fr" starts with none of the three supported
codes and maps to "en". -/
theorem c10_language_totality_witness :
    listStartsWith ("fr" : String).data (("si" : String).data) = false ∧
    listStartsWith ("fr" : String).data (("ta" : String).data) = false ∧
    listStartsWith ("fr" : String).data (("en" : String).data) = false ∧
    map_language_code "fr" = "en" :=
  ⟨by decide, by decide, by decide,
   c10_language_totality.2.2.2.2.1 "fr" (by decide) (by decide) (by decide)⟩
